import Mathlib

/-!
# libpgconnector: the `Connection` class

A shallow embedding of `libpgconnector/src/connection.cpp`.

* A `QString` is its sequence of UTF-16 code units; `QString::operator<`, which
  orders the keys of `map<QString, QString>`, compares code unit by code unit.
* `map<QString, QString>` is the list of its entries in ascending key order.
* The PostgreSQL client library (libpq) is a parameter: a record `LibPQ` of
  arbitrary functions over an arbitrary library state, so that every theorem
  holds for every behaviour of the library.  Each call the class makes is
  appended to a log kept next to the library state.
* A method is a function from the object (and the library world) to an
  `Outcome`: the value returned or the exception thrown, together with the
  object and the world as the method leaves them.
-/

namespace PgConnector

/-! ## QString -/

/-- A `QString`, as its sequence of UTF-16 code units.  A code unit is a
natural number; that it fits 16 bits plays no part. -/
abbrev QString := List Nat

/-- The `QString` built from a string literal of the source. -/
def qs (s : String) : QString := s.toList.map Char.toNat

/-- The method `QString::isEmpty()`; also what comparing with the literal `""` decides. -/
def isEmpty (s : QString) : Bool := s.length == 0

/-- The method `QString::mid(position, n)` for non-negative arguments: the `n` code units
from `position` on, fewer when the string ends before, none when `position`
is past the end. -/
def mid (s : QString) (position n : Nat) : QString := (s.drop position).take n

/-- Is the code unit one of `0` .. `9`. -/
def isDigit (u : Nat) : Bool := decide (('0').toNat ≤ u) && decide (u ≤ ('9').toNat)

/-- The number a run of decimal digits denotes, most significant digit first. -/
def digitsValue (ds : QString) : Nat := ds.foldl (fun acc u => 10 * acc + (u - ('0').toNat)) 0

/-- Is the string a non-empty run of decimal digits. -/
def isDigitRun (ds : QString) : Bool := !ds.isEmpty && ds.all isDigit

/-- The 32-bit `int` a conversion yields, or 0 when the number does not fit. -/
def intOrZero (v : Int) : Int := if -2147483648 ≤ v ∧ v ≤ 2147483647 then v else 0

/-- The method `QString::toInt()` in base 10 on a string without white space: an optional
sign and a non-empty run of digits give the number, when it fits an `int`;
anything else fails to convert and gives 0.  (The strings converted in this
class are slices of the decimal text of an `int`.) -/
def toInt (s : QString) : Int :=
  match s with
  | [] => 0
  | u :: ds =>
    if u = ('-').toNat then
      (if isDigitRun ds then intOrZero (-(digitsValue ds : Int)) else 0)
    else if u = ('+').toNat then
      (if isDigitRun ds then intOrZero (digitsValue ds) else 0)
    else
      (if isDigitRun (u :: ds) then intOrZero (digitsValue (u :: ds)) else 0)

/-- The decimal text of an `int`, what `QString("%1").arg(n)` is. -/
def number (n : Int) : QString := qs (toString n)

/-! ## QRegExp -/

/-- The character class `[0-9]`. -/
def digitClass : RegularExpression Nat :=
  .char ('0').toNat + .char ('1').toNat + .char ('2').toNat + .char ('3').toNat
    + .char ('4').toNat + .char ('5').toNat + .char ('6').toNat + .char ('7').toNat
    + .char ('8').toNat + .char ('9').toNat

/-- The quantifier `+`: one or more. -/
def oneOrMore (r : RegularExpression Nat) : RegularExpression Nat := r * .star r

/-- The escaped dot `\.`. -/
def dot : RegularExpression Nat := .char ('.').toNat

/-- The pattern `[0-9]+\.[0-9]+\.[0-9]+\.[0-9]+` of `setConnectionParam`. -/
def ip_regexp : RegularExpression Nat :=
  oneOrMore digitClass * dot * oneOrMore digitClass * dot * oneOrMore digitClass * dot
    * oneOrMore digitClass

/-- The method `QRegExp::exactMatch`: does the pattern match the whole string. -/
def exactMatch (r : RegularExpression Nat) (s : QString) : Bool := r.rmatch s

/-! ## map<QString, QString> -/

/-- The entries of a `map<QString, QString>`, in ascending key order. -/
abbrev ParamMap := List (QString × QString)

/-- The map after `operator[]`: an entry with the empty string as its value is
inserted at the key's place when the map has no entry for the key. -/
def subscript (k : QString) : ParamMap → ParamMap
  | [] => [(k, [])]
  | (k1, v1) :: rest =>
    if k < k1 then (k, []) :: (k1, v1) :: rest
    else if k = k1 then (k1, v1) :: rest
    else (k1, v1) :: subscript k rest

/-- The value of the entry for a key, the one `operator[]` gives a reference
to (the empty string for a map that has no entry for the key). -/
def valueAt (k : QString) : ParamMap → QString
  | [] => []
  | (k1, v1) :: rest => if k = k1 then v1 else valueAt k rest

/-- Assignment through the reference `operator[]` gives: the value of the
entry for the key is replaced. -/
def store (k v : QString) : ParamMap → ParamMap
  | [] => []
  | (k1, v1) :: rest => if k = k1 then (k1, v) :: rest else (k1, v1) :: store k v rest

/-- The statement `m[k]=v`. -/
def subscriptAssign (k v : QString) (m : ParamMap) : ParamMap := store k v (subscript k m)

/-- The value a map snapshot has for a key, `none` when it has no entry. -/
def find (k : QString) : ParamMap → Option QString
  | [] => none
  | (k1, v1) :: rest => if k = k1 then some v1 else find k rest

/-- The keys of a map, in iteration order. -/
def keys (m : ParamMap) : List QString := m.map Prod.fst

/-- The keys of a `std::map` are strictly ascending. -/
def WellFormed (m : ParamMap) : Prop := (keys m).Sorted (· < ·)

/-! ## Exceptions -/

/-- Modelled from the spec: the error codes `connection.cpp` raises, which are
declared outside it.  In the order below the spec calls them
InvalidParameterError, NotConfiguredError, ConnectionFailedError,
NoActiveConnectionError and SqlExecutionError. -/
inductive ErrorType
  | ERR_ASG_INV_CONN_PARAM
  | ERR_CONNECTION_NOT_CONFIGURED
  | ERR_CONNECTION_NOT_STABLISHED
  | ERR_OPR_NOT_ALOC_CONN
  | ERR_CMD_SQL_NOT_EXECUTED
  deriving DecidableEq, Repr

/-- Modelled from the spec: the `Exception` class, declared outside
`connection.cpp`: its error code, the text put into its message (the library's
error text, where there is one), and its extra information (the SQL state). -/
structure Exception where
  error_type : ErrorType
  msg_arg : QString
  extra_info : QString
  deriving DecidableEq, Repr

/-- The error code an outcome failed with, `none` when it did not fail. -/
def errorOf {α : Type} : Except Exception α → Option ErrorType
  | .error e => some e.error_type
  | .ok _ => none

/-- The value an outcome returned, `none` when it failed. -/
def valueOf {α : Type} : Except Exception α → Option α
  | .error _ => none
  | .ok a => some a

/-! ## The client library -/

/-- A non-null `PGconn *`. -/
abbrev PGconn := Nat

/-- A non-null `PGresult *`. -/
abbrev PGresult := Nat

/-- What `PQstatus` reports, as far as `connect` looks at it. -/
inductive ConnStatusType
  | CONNECTION_OK
  | CONNECTION_BAD
  deriving DecidableEq, Repr

/-- The behaviour of the client library over its own state `σ`.  A null
pointer is `none`. -/
structure LibPQ (σ : Type) where
  PQconnectdb : σ → QString → Option PGconn × σ
  PQstatus : σ → PGconn → ConnStatusType
  PQerrorMessage : σ → Option PGconn → QString
  PQfinish : σ → PGconn → σ
  PQreset : σ → PGconn → σ
  PQserverVersion : σ → PGconn → Int
  PQexec : σ → PGconn → QString → Option PGresult × σ
  PQresultErrorField : σ → Option PGresult → QString

/-- A call into the client library. -/
inductive LibCall
  | PQconnectdb (conninfo : QString)
  | PQstatus (conn : PGconn)
  | PQerrorMessage (conn : Option PGconn)
  | PQfinish (conn : PGconn)
  | PQreset (conn : PGconn)
  | PQserverVersion (conn : PGconn)
  | PQexec (conn : PGconn) (query : QString)
  | PQresultErrorField (res : Option PGresult)
  deriving DecidableEq, Repr

/-- The library's state and the calls made into it so far, oldest first. -/
structure World (σ : Type) where
  lib : σ
  calls : List LibCall
  deriving DecidableEq

/-- The world after one more call. -/
def World.called {σ : Type} (w : World σ) (s : σ) (call : LibCall) : World σ :=
  ⟨s, w.calls ++ [call]⟩

/-! ## The class -/

/-- The data members of `Connection`. -/
structure Connection where
  connection : Option PGconn
  connection_params : ParamMap
  connection_str : QString
  deriving DecidableEq, Repr

/-- What a method leaves behind: its result, the object, the world. -/
structure Outcome (σ α : Type) where
  result : Except Exception α
  self : Connection
  world : World σ

/-- What a method that makes no library call leaves behind. -/
structure LocalOutcome (α : Type) where
  result : Except Exception α
  self : Connection

/-- Modelled from the spec: the `ResultSet` class, declared outside
`connection.cpp`.  The spec has the adapter wrap the raw result into the
result-set value and copy it out, so constructing one from a `PGresult *`
is taken to raise nothing. -/
structure ResultSet where
  sql_result : Option PGresult
  deriving DecidableEq, Repr

def PARAM_SERVER_FQDN : QString := qs "host"
def PARAM_SERVER_IP : QString := qs "hostaddr"
def PARAM_PORT : QString := qs "port"
def PARAM_DB_NAME : QString := qs "dbname"
def PARAM_USER : QString := qs "user"
def PARAM_PASSWORD : QString := qs "password"

/-- The constructor `Connection::Connection(void)`. -/
def newConnection : Connection := ⟨none, [], []⟩

/-- One pass of the loop of `generateConnectionString` over an entry. -/
def appendParam (acc : QString) (e : QString × QString) : QString :=
  if !isEmpty e.2 then acc ++ (e.1 ++ qs "=" ++ e.2 ++ qs " ") else acc

/-- The method `Connection::generateConnectionString`. -/
def generateConnectionString (c : Connection) : Connection :=
  { c with connection_str := c.connection_params.foldl appendParam [] }

/-- The method `Connection::setConnectionParam`. -/
def setConnectionParam (c : Connection) (param value : QString) : LocalOutcome Unit :=
  if param = [] then
    ⟨.error ⟨.ERR_ASG_INV_CONN_PARAM, [], []⟩, c⟩
  else if param = PARAM_SERVER_FQDN ∧ exactMatch ip_regexp value = true then
    ⟨.ok (), generateConnectionString
      { c with connection_params := subscriptAssign PARAM_SERVER_IP value c.connection_params }⟩
  else
    ⟨.ok (), generateConnectionString
      { c with connection_params := subscriptAssign param value c.connection_params }⟩

/-- The method `Connection::connect`. -/
def connect {σ : Type} (L : LibPQ σ) (c : Connection) (w : World σ) : Outcome σ Unit :=
  if c.connection_str = [] then
    ⟨.error ⟨.ERR_CONNECTION_NOT_CONFIGURED, [], []⟩, c, w⟩
  else
    let r := L.PQconnectdb w.lib c.connection_str
    let w1 := w.called r.2 (.PQconnectdb c.connection_str)
    let c1 := { c with connection := r.1 }
    match r.1 with
    | none =>
      let w2 := w1.called w1.lib (.PQerrorMessage none)
      ⟨.error ⟨.ERR_CONNECTION_NOT_STABLISHED, L.PQerrorMessage w1.lib none, []⟩, c1, w2⟩
    | some conn =>
      let w2 := w1.called w1.lib (.PQstatus conn)
      if L.PQstatus w1.lib conn = .CONNECTION_BAD then
        let w3 := w2.called w2.lib (.PQerrorMessage (some conn))
        ⟨.error ⟨.ERR_CONNECTION_NOT_STABLISHED, L.PQerrorMessage w2.lib (some conn), []⟩, c1, w3⟩
      else
        ⟨.ok (), c1, w2⟩

/-- The method `Connection::close`. -/
def close {σ : Type} (L : LibPQ σ) (c : Connection) (w : World σ) : Outcome σ Unit :=
  match c.connection with
  | none => ⟨.error ⟨.ERR_OPR_NOT_ALOC_CONN, [], []⟩, c, w⟩
  | some conn =>
    ⟨.ok (), { c with connection := none }, w.called (L.PQfinish w.lib conn) (.PQfinish conn)⟩

/-- The method `Connection::reset`. -/
def reset {σ : Type} (L : LibPQ σ) (c : Connection) (w : World σ) : Outcome σ Unit :=
  match c.connection with
  | none => ⟨.error ⟨.ERR_OPR_NOT_ALOC_CONN, [], []⟩, c, w⟩
  | some conn => ⟨.ok (), c, w.called (L.PQreset w.lib conn) (.PQreset conn)⟩

/-- The method `Connection::getConnectionParam`. -/
def getConnectionParam (c : Connection) (param : QString) : LocalOutcome QString :=
  let m := subscript param c.connection_params
  ⟨.ok (valueAt param m), { c with connection_params := m }⟩

/-- The method `Connection::getConnectionParams`. -/
def getConnectionParams (c : Connection) : LocalOutcome ParamMap :=
  ⟨.ok c.connection_params, c⟩

/-- The method `Connection::getConnectionString`. -/
def getConnectionString (c : Connection) : LocalOutcome QString :=
  ⟨.ok c.connection_str, c⟩

/-- The method `Connection::isStablished`. -/
def isStablished (c : Connection) : Bool := c.connection.isSome

/-- The text `QString("%1.%2.%3")` becomes with its three markers filled
by `int` arguments. -/
def versionText (a b c : Int) : QString :=
  number a ++ qs "." ++ number b ++ qs "." ++ number c

/-- The text `getPgSQLVersion` makes of the library's version code. -/
def decodeVersion (code : Int) : QString :=
  let version := number code
  versionText (Int.tdiv (toInt (mid version 0 2)) 10) (Int.tdiv (toInt (mid version 2 2)) 10)
    (toInt (mid version 4 1))

/-- The method `Connection::getPgSQLVersion`. -/
def getPgSQLVersion {σ : Type} (L : LibPQ σ) (c : Connection) (w : World σ) :
    Outcome σ QString :=
  match c.connection with
  | none => ⟨.error ⟨.ERR_OPR_NOT_ALOC_CONN, [], []⟩, c, w⟩
  | some conn =>
    ⟨.ok (decodeVersion (L.PQserverVersion w.lib conn)), c,
      w.called w.lib (.PQserverVersion conn)⟩

/-- The method `Connection::executeDMLCommand`; the result set it assigns to
its reference parameter is the value returned. -/
def executeDMLCommand {σ : Type} (L : LibPQ σ) (c : Connection) (sql : QString)
    (w : World σ) : Outcome σ ResultSet :=
  match c.connection with
  | none => ⟨.error ⟨.ERR_OPR_NOT_ALOC_CONN, [], []⟩, c, w⟩
  | some conn =>
    let r := L.PQexec w.lib conn sql
    let w1 := w.called r.2 (.PQexec conn sql)
    let w2 := w1.called w1.lib (.PQerrorMessage (some conn))
    if (L.PQerrorMessage w1.lib (some conn)).length > 0 then
      let w3 := w2.called w2.lib (.PQerrorMessage (some conn))
      let w4 := w3.called w3.lib (.PQresultErrorField r.1)
      ⟨.error ⟨.ERR_CMD_SQL_NOT_EXECUTED, L.PQerrorMessage w2.lib (some conn),
        L.PQresultErrorField w3.lib r.1⟩, c, w4⟩
    else
      ⟨.ok ⟨r.1⟩, c, w2⟩

/-- The method `Connection::executeDDLCommand`. -/
def executeDDLCommand {σ : Type} (L : LibPQ σ) (c : Connection) (sql : QString)
    (w : World σ) : Outcome σ Unit :=
  match c.connection with
  | none => ⟨.error ⟨.ERR_OPR_NOT_ALOC_CONN, [], []⟩, c, w⟩
  | some conn =>
    let r := L.PQexec w.lib conn sql
    let w1 := w.called r.2 (.PQexec conn sql)
    let w2 := w1.called w1.lib (.PQerrorMessage (some conn))
    if (L.PQerrorMessage w1.lib (some conn)).length > 0 then
      let w3 := w2.called w2.lib (.PQerrorMessage (some conn))
      let w4 := w3.called w3.lib (.PQresultErrorField r.1)
      ⟨.error ⟨.ERR_CMD_SQL_NOT_EXECUTED, L.PQerrorMessage w2.lib (some conn),
        L.PQresultErrorField w3.lib r.1⟩, c, w4⟩
    else
      ⟨.ok (), c, w2⟩

/-- What `operator =` leaves behind: its result, the object assigned to, the
object `conn` refers to, the world. -/
structure AssignOutcome (σ : Type) where
  result : Except Exception Unit
  self : Connection
  conn : Connection
  world : World σ

/-- The method `Connection::operator =`, assigning `conn` to `this`. -/
def assign {σ : Type} (L : LibPQ σ) (this conn : Connection) (w : World σ) :
    AssignOutcome σ :=
  let closed : Outcome σ Unit := if isStablished this then close L this w else ⟨.ok (), this, w⟩
  match closed.result with
  | .error e => ⟨.error e, closed.self, conn, closed.world⟩
  | .ok _ =>
    ⟨.ok (), ⟨closed.self.connection, conn.connection_params, conn.connection_str⟩, conn,
      closed.world⟩

/-- The objects a program can bring a `Connection` to: default construction,
then any sequence of the listed methods, the library answering in any way. -/
inductive Reachable {σ : Type} (L : LibPQ σ) : Connection → Prop
  | ctor : Reachable L newConnection
  | setConnectionParam {c : Connection} (param value : QString) :
      Reachable L c → Reachable L (setConnectionParam c param value).self
  | getConnectionParam {c : Connection} (param : QString) :
      Reachable L c → Reachable L (getConnectionParam c param).self
  | getConnectionParams {c : Connection} :
      Reachable L c → Reachable L (getConnectionParams c).self
  | getConnectionString {c : Connection} :
      Reachable L c → Reachable L (getConnectionString c).self
  | connect {c : Connection} (w : World σ) :
      Reachable L c → Reachable L (connect L c w).self
  | close {c : Connection} (w : World σ) :
      Reachable L c → Reachable L (close L c w).self
  | reset {c : Connection} (w : World σ) :
      Reachable L c → Reachable L (reset L c w).self
  | assign {this conn : Connection} (w : World σ) :
      Reachable L this → Reachable L conn → Reachable L (assign L this conn w).self

/-! ## What the specification says, in its own words -/

/-- The token `key=value ` an entry contributes to the connection string. -/
def token (e : QString × QString) : QString := e.1 ++ qs "=" ++ e.2 ++ qs " "

/-- The connection string as the specification describes it: the tokens of
exactly the entries whose value is not empty, concatenated in the order of
the map. -/
def expectedString (m : ParamMap) : QString :=
  ((m.filter (fun e => !isEmpty e.2)).map token).flatten

/-- A value that consists of exactly four non-empty runs of decimal digits
separated by single dots. -/
def DottedDecimal (v : QString) : Prop :=
  ∃ a b c d : QString, isDigitRun a = true ∧ isDigitRun b = true ∧ isDigitRun c = true ∧
    isDigitRun d = true ∧ v = a ++ qs "." ++ b ++ qs "." ++ c ++ qs "." ++ d

/-- The invariant of the class: the keys of the map ascend strictly, and the
cached connection string is the one the map determines. -/
def Invariant (c : Connection) : Prop :=
  WellFormed c.connection_params ∧ c.connection_str = expectedString c.connection_params

/-! ## Examples -/

/-- A library for the examples: every attempt to connect yields the handle 1,
whose status is `st`, whose error text is `err` and whose server reports
the version code `version`; every statement yields the result 2. -/
def exampleLib (st : ConnStatusType) (err : QString) (version : Int) : LibPQ Unit :=
  { PQconnectdb := fun _ _ => (some 1, ())
    PQstatus := fun _ _ => st
    PQerrorMessage := fun _ _ => err
    PQfinish := fun _ _ => ()
    PQreset := fun _ _ => ()
    PQserverVersion := fun _ _ => version
    PQexec := fun _ _ _ => (some 2, ())
    PQresultErrorField := fun _ _ => qs "42601" }

/-- The world before any call. -/
def world0 : World Unit := ⟨(), []⟩

/-- A default-constructed object after `setConnectionParam("host", "db.example.com")`. -/
def withHostName : Connection :=
  (setConnectionParam newConnection PARAM_SERVER_FQDN (qs "db.example.com")).self

/-- The object `withHostName` after `setConnectionParam("port", "")` and
`setConnectionParam("dbname", "shop")`. -/
def withThreeParams : Connection :=
  (setConnectionParam (setConnectionParam withHostName PARAM_PORT []).self PARAM_DB_NAME
    (qs "shop")).self

/-- A default-constructed object after `setConnectionParam("port", "")`. -/
def withEmptyPort : Connection := (setConnectionParam newConnection PARAM_PORT []).self

/-- A library whose attempts to connect yield a handle of bad status. -/
def refusingLib : LibPQ Unit :=
  exampleLib .CONNECTION_BAD (qs "could not connect to server") 0

/-- The object `withHostName` after a `connect` the library accepts: it holds
the session handle 1. -/
def connectedExample : Connection :=
  (connect (exampleLib .CONNECTION_OK [] 90603) withHostName world0).self

/-! ## The parameter map -/

theorem mem_keys_subscript (k x : QString) (m : ParamMap) (h : x ∈ keys (subscript k m)) :
    x = k ∨ x ∈ keys m := by
  induction m with
  | nil => simpa [subscript, keys] using h
  | cons e rest ih =>
    obtain ⟨k1, v1⟩ := e
    unfold subscript at h
    split_ifs at h with h1 h2
    · simpa [keys] using h
    · exact Or.inr h
    · simp only [keys, List.map_cons, List.mem_cons] at h ⊢
      rcases h with h | h
      · exact Or.inr (Or.inl h)
      · rcases ih h with h | h
        · exact Or.inl h
        · exact Or.inr (Or.inr h)

theorem wellFormed_subscript (k : QString) (m : ParamMap) (h : WellFormed m) :
    WellFormed (subscript k m) := by
  induction m with
  | nil => simp [subscript, WellFormed, keys]
  | cons e rest ih =>
    obtain ⟨k1, v1⟩ := e
    have hs : (∀ b ∈ keys rest, k1 < b) ∧ WellFormed rest := by
      simpa [WellFormed, keys, List.sorted_cons] using h
    unfold subscript
    split_ifs with h1 h2
    · simp only [WellFormed, keys, List.map_cons, List.sorted_cons, List.mem_cons]
      refine ⟨?_, ?_, ?_⟩
      · rintro b (rfl | hb)
        · exact h1
        · exact lt_trans h1 (hs.1 b (by simpa [keys] using hb))
      · intro b hb
        exact hs.1 b (by simpa [keys] using hb)
      · exact hs.2
    · exact h
    · have hlt : k1 < k := lt_of_le_of_ne (not_lt.mp h1) (Ne.symm h2)
      have hk : keys ((k1, v1) :: subscript k rest) = k1 :: keys (subscript k rest) := rfl
      rw [WellFormed, hk, List.sorted_cons]
      refine ⟨?_, ih hs.2⟩
      intro b hb
      rcases mem_keys_subscript k b rest hb with rfl | hb
      · exact hlt
      · exact hs.1 b hb

theorem keys_store (k v : QString) (m : ParamMap) : keys (store k v m) = keys m := by
  induction m with
  | nil => rfl
  | cons e rest ih =>
    obtain ⟨k1, v1⟩ := e
    unfold store
    split_ifs with h1
    · rfl
    · simp only [keys, List.map_cons] at ih ⊢
      rw [ih]

theorem wellFormed_subscriptAssign (k v : QString) (m : ParamMap) (h : WellFormed m) :
    WellFormed (subscriptAssign k v m) := by
  unfold subscriptAssign WellFormed
  rw [keys_store]
  exact wellFormed_subscript k m h

theorem find_subscriptAssign_self (k v : QString) (m : ParamMap) :
    find k (subscriptAssign k v m) = some v := by
  unfold subscriptAssign
  induction m with
  | nil => simp [subscript, store, find]
  | cons e rest ih =>
    obtain ⟨k1, v1⟩ := e
    unfold subscript
    split_ifs with h1 h2
    · simp [store, find]
    · simp [store, find, h2]
    · simp [store, find, h2, ih]

theorem find_subscriptAssign_other (k v x : QString) (m : ParamMap) (hx : x ≠ k) :
    find x (subscriptAssign k v m) = find x m := by
  unfold subscriptAssign
  induction m with
  | nil => simp [subscript, store, find, hx]
  | cons e rest ih =>
    obtain ⟨k1, v1⟩ := e
    unfold subscript
    split_ifs with h1 h2
    · simp [store, find, hx]
    · subst h2
      simp [store, find, hx]
    · simp [store, find, h2, ih]

theorem expectedString_cons (e : QString × QString) (m : ParamMap) :
    expectedString (e :: m) = if isEmpty e.2 = true then expectedString m
      else token e ++ expectedString m := by
  by_cases he : isEmpty e.2 = true <;> simp [expectedString, List.filter_cons, he]

theorem expectedString_subscript (k : QString) (m : ParamMap) :
    expectedString (subscript k m) = expectedString m := by
  induction m with
  | nil => simp [subscript, expectedString, isEmpty]
  | cons e rest ih =>
    obtain ⟨k1, v1⟩ := e
    unfold subscript
    split_ifs with h1 h2
    · rw [expectedString_cons]
      simp [isEmpty]
    · rfl
    · rw [expectedString_cons, expectedString_cons, ih]

theorem foldl_appendParam (m : ParamMap) (acc : QString) :
    m.foldl appendParam acc = acc ++ expectedString m := by
  induction m generalizing acc with
  | nil => simp [expectedString]
  | cons e rest ih =>
    rw [List.foldl_cons, ih, expectedString_cons]
    by_cases he : isEmpty e.2 = true
    · simp [appendParam, he]
    · simp [appendParam, he, token]

theorem generateConnectionString_str (c : Connection) :
    (generateConnectionString c).connection_str = expectedString c.connection_params := by
  simp [generateConnectionString, foldl_appendParam]

theorem invariant_congr {a b : Connection} (hp : a.connection_params = b.connection_params)
    (hs : a.connection_str = b.connection_str) (h : Invariant b) : Invariant a := by
  unfold Invariant at h ⊢
  rw [hp, hs]
  exact h

theorem close_frame {σ : Type} (L : LibPQ σ) (c : Connection) (w : World σ) :
    (close L c w).self.connection_params = c.connection_params ∧
      (close L c w).self.connection_str = c.connection_str := by
  unfold close
  split <;> exact ⟨rfl, rfl⟩

theorem invariant_of_reachable {σ : Type} (L : LibPQ σ) (c : Connection)
    (h : Reachable L c) : Invariant c := by
  induction h with
  | ctor => simp [Invariant, newConnection, WellFormed, keys, expectedString]
  | setConnectionParam param value _ ih =>
    unfold setConnectionParam
    split_ifs
    · exact ih
    · exact ⟨wellFormed_subscriptAssign _ _ _ ih.1, generateConnectionString_str _⟩
    · exact ⟨wellFormed_subscriptAssign _ _ _ ih.1, generateConnectionString_str _⟩
  | getConnectionParam param _ ih =>
    refine ⟨wellFormed_subscript _ _ ih.1, ?_⟩
    simp only [getConnectionParam]
    rw [expectedString_subscript]
    exact ih.2
  | getConnectionParams _ ih => exact ih
  | getConnectionString _ ih => exact ih
  | connect w _ ih =>
    unfold connect
    split_ifs
    · exact ih
    · dsimp only
      split
      · exact ih
      · split_ifs <;> exact ih
  | close w _ ih =>
    unfold close
    split <;> exact ih
  | reset w _ ih =>
    unfold reset
    split <;> exact ih
  | assign w _ hconn ih1 ih2 =>
    unfold assign
    dsimp only
    split
    · refine invariant_congr ?_ ?_ ih1
      · dsimp only
        split_ifs
        · exact (close_frame L _ w).1
        · rfl
      · dsimp only
        split_ifs
        · exact (close_frame L _ w).2
        · rfl
    · exact ih2

theorem expectedString_eq_nil (m : ParamMap) :
    expectedString m = [] ↔ ∀ e ∈ m, e.2 = [] := by
  induction m with
  | nil => simp [expectedString]
  | cons e rest ih =>
    rw [expectedString_cons]
    by_cases he : isEmpty e.2 = true
    · have he2 : e.2 = [] := by simpa [isEmpty] using he
      rw [if_pos he, ih]
      simp [he2]
    · have he2 : e.2 ≠ [] := by simpa [isEmpty] using he
      rw [if_neg he]
      simp [he2, token, qs]

/-! ## What holds of `getConnectionParam` and of a refused `connect` -/

theorem find_subscript_other (k x : QString) (m : ParamMap) (hx : x ≠ k) :
    find x (subscript k m) = find x m := by
  induction m with
  | nil => simp [subscript, find, hx]
  | cons e rest ih =>
    obtain ⟨k1, v1⟩ := e
    unfold subscript
    split_ifs with h1 h2
    · simp [find, hx]
    · rfl
    · simp [find, ih]

theorem find_eq_none_of_not_mem (k : QString) (m : ParamMap) (h : k ∉ keys m) :
    find k m = none := by
  induction m with
  | nil => rfl
  | cons e rest ih =>
    obtain ⟨k1, v1⟩ := e
    simp only [keys, List.map_cons, List.mem_cons, not_or] at h
    simp only [find, if_neg h.1]
    exact ih h.2

theorem find_subscript_self (k : QString) (m : ParamMap) (hm : WellFormed m) :
    find k (subscript k m) = some ((find k m).getD []) := by
  induction m with
  | nil => simp [subscript, find]
  | cons e rest ih =>
    obtain ⟨k1, v1⟩ := e
    have hs : (∀ b ∈ keys rest, k1 < b) ∧ WellFormed rest := by
      simpa [WellFormed, keys, List.sorted_cons] using hm
    unfold subscript
    split_ifs with h1 h2
    · have hne : k ≠ k1 := fun h => lt_irrefl k (h ▸ h1)
      have hnot : k ∉ keys rest := fun hk => lt_irrefl k (lt_trans h1 (hs.1 k hk))
      simp [find, hne, find_eq_none_of_not_mem k rest hnot]
    · simp [find, h2]
    · simp [find, h2, ih hs.2]

theorem valueAt_eq_find (k : QString) (m : ParamMap) : valueAt k m = (find k m).getD [] := by
  induction m with
  | nil => rfl
  | cons e rest ih =>
    obtain ⟨k1, v1⟩ := e
    unfold valueAt find
    split_ifs
    · rfl
    · exact ih

theorem getConnectionParam_holds (c : Connection) (param : QString)
    (hm : WellFormed c.connection_params) :
    errorOf (getConnectionParam c param).result = none ∧
      valueOf (getConnectionParam c param).result
        = some ((find param c.connection_params).getD []) ∧
      (getConnectionParam c param).self.connection_str = c.connection_str ∧
      (getConnectionParam c param).self.connection = c.connection ∧
      ∀ x, x ≠ param → find x (getConnectionParam c param).self.connection_params
        = find x c.connection_params := by
  refine ⟨rfl, ?_, rfl, rfl, fun x hx => find_subscript_other _ _ _ hx⟩
  simp only [getConnectionParam, valueOf, valueAt_eq_find, find_subscript_self _ _ hm,
    Option.getD_some]

theorem connect_null_handle {σ : Type} (L : LibPQ σ) (c : Connection) (w : World σ)
    (hstr : c.connection_str ≠ []) (hc : c.connection = none)
    (hnull : (L.PQconnectdb w.lib c.connection_str).1 = none) :
    errorOf (connect L c w).result = some .ERR_CONNECTION_NOT_STABLISHED ∧
      (connect L c w).self = c := by
  obtain ⟨session, params, str⟩ := c
  simp only at hc hstr hnull
  subst hc
  simp [connect, hstr, hnull, errorOf]

/-! ## The pattern of host addresses -/

theorem digitClass_rmatch (x : QString) :
    digitClass.rmatch x = true ↔ ∃ u, isDigit u = true ∧ x = [u] := by
  simp only [digitClass, RegularExpression.add_rmatch_iff, RegularExpression.char_rmatch_iff]
  constructor
  · rintro (((((((((h | h) | h) | h) | h) | h) | h) | h) | h) | h) <;>
      exact ⟨_, by decide, h⟩
  · rintro ⟨u, hu, rfl⟩
    simp only [isDigit, Bool.and_eq_true, decide_eq_true_eq] at hu
    obtain ⟨h1, h2⟩ := hu
    have h1 : 48 ≤ u := h1
    have h2 : u ≤ 57 := h2
    interval_cases u <;> simp

theorem flatten_singletons (l : QString) : (l.map (fun u => [u])).flatten = l := by
  induction l with
  | nil => rfl
  | cons a rest ih => simp [ih]

theorem oneOrMore_digitClass_rmatch (x : QString) :
    (oneOrMore digitClass).rmatch x = true ↔ isDigitRun x = true := by
  simp only [oneOrMore, RegularExpression.mul_rmatch_iff, RegularExpression.star_rmatch_iff,
    digitClass_rmatch, isDigitRun, Bool.and_eq_true, Bool.not_eq_true', List.isEmpty_eq_false,
    List.all_eq_true]
  constructor
  · rintro ⟨t, u, rfl, ⟨d, hd, rfl⟩, S, rfl, hS⟩
    refine ⟨by simp, ?_⟩
    intro y hy
    simp only [List.singleton_append, List.mem_cons, List.mem_flatten] at hy
    rcases hy with rfl | ⟨l, hl, hy⟩
    · exact hd
    · obtain ⟨_, d1, hd1, rfl⟩ := hS l hl
      simp only [List.mem_singleton] at hy
      rw [hy]
      exact hd1
  · rintro ⟨hne, hall⟩
    cases x with
    | nil => simp at hne
    | cons d rest =>
      refine ⟨[d], rest, rfl, ⟨d, hall d (by simp), rfl⟩, rest.map (fun u => [u]),
        (flatten_singletons rest).symm, ?_⟩
      intro t ht
      simp only [List.mem_map] at ht
      obtain ⟨u, hu, rfl⟩ := ht
      exact ⟨by simp, u, hall u (by simp [hu]), rfl⟩

theorem exactMatch_ip_regexp (v : QString) :
    exactMatch ip_regexp v = true ↔ DottedDecimal v := by
  simp only [exactMatch, ip_regexp, RegularExpression.mul_rmatch_iff,
    oneOrMore_digitClass_rmatch, dot, RegularExpression.char_rmatch_iff, DottedDecimal]
  constructor
  · rintro ⟨_, d, rfl, ⟨_, _, rfl, ⟨_, c, rfl, ⟨_, _, rfl, ⟨_, b, rfl, ⟨a, _, rfl, ha, rfl⟩,
      hb⟩, rfl⟩, hc⟩, rfl⟩, hd⟩
    exact ⟨a, b, c, d, ha, hb, hc, hd, rfl⟩
  · rintro ⟨a, b, c, d, ha, hb, hc, hd, rfl⟩
    exact ⟨_, d, rfl, ⟨_, _, rfl, ⟨_, c, rfl, ⟨_, _, rfl, ⟨_, b, rfl, ⟨a, _, rfl, ha, rfl⟩,
      hb⟩, rfl⟩, hc⟩, rfl⟩, hd⟩

/-! ## The claims -/

/-- C1: in every object reachable from default construction by the listed
methods, the keys of the parameter map ascend strictly and
`getConnectionString()` returns the concatenation, in that order, of
`key=value ` over exactly the entries whose value is not empty. -/
theorem connection_string_of_reachable {σ : Type} (L : LibPQ σ) (c : Connection)
    (h : Reachable L c) :
    WellFormed c.connection_params ∧
      valueOf (getConnectionString c).result = some (expectedString c.connection_params) := by
  have hinv := invariant_of_reachable L c h
  exact ⟨hinv.1, by simp [getConnectionString, valueOf, hinv.2]⟩

theorem connection_string_of_reachable_witness :
    Reachable (exampleLib .CONNECTION_OK [] 90603) withThreeParams ∧
      (WellFormed withThreeParams.connection_params ∧
        valueOf (getConnectionString withThreeParams).result =
          some (expectedString withThreeParams.connection_params)) ∧
      withThreeParams.connection_params =
        [(qs "dbname", qs "shop"), (qs "host", qs "db.example.com"), (qs "port", [])] ∧
      expectedString withThreeParams.connection_params = qs "dbname=shop host=db.example.com " :=
  have hr : Reachable (exampleLib .CONNECTION_OK [] 90603) withThreeParams :=
    Reachable.setConnectionParam _ _ (Reachable.setConnectionParam _ _
      (Reachable.setConnectionParam _ _ Reachable.ctor))
  ⟨hr, connection_string_of_reachable _ _ hr, by decide, by decide⟩

/-- C3: `setConnectionParam` with the empty name fails with
ERR_ASG_INV_CONN_PARAM and leaves the whole object as it was; with a name
that is not empty it raises nothing, so never that error. -/
theorem setConnectionParam_empty_name (c : Connection) (value : QString) :
    errorOf (setConnectionParam c [] value).result = some .ERR_ASG_INV_CONN_PARAM ∧
      (setConnectionParam c [] value).self = c ∧
      ∀ param : QString, param ≠ [] →
        errorOf (setConnectionParam c param value).result ≠ some .ERR_ASG_INV_CONN_PARAM ∧
          errorOf (setConnectionParam c param value).result = none := by
  refine ⟨by simp [setConnectionParam, errorOf], by simp [setConnectionParam], ?_⟩
  intro param hp
  unfold setConnectionParam
  rw [if_neg hp]
  split_ifs <;> simp [errorOf]

/-- C4: when `connect` returns without error the object is established; when
`close` returns without error the object is not established, its parameter
map and connection string are as before, and a `close` right after fails
with ERR_OPR_NOT_ALOC_CONN. -/
theorem connect_close_established {σ : Type} (L : LibPQ σ) (c : Connection) (w : World σ) :
    (errorOf (connect L c w).result = none → isStablished (connect L c w).self = true) ∧
      (errorOf (close L c w).result = none →
        isStablished (close L c w).self = false ∧
          (close L c w).self.connection_params = c.connection_params ∧
          (close L c w).self.connection_str = c.connection_str ∧
          errorOf (close L (close L c w).self (close L c w).world).result =
            some .ERR_OPR_NOT_ALOC_CONN) := by
  constructor
  · unfold connect
    split_ifs
    · simp [errorOf]
    · dsimp only
      split
      · simp [errorOf]
      · rename_i conn hconn
        split_ifs
        · simp [errorOf]
        · intro _
          simp [isStablished, hconn]
  · unfold close
    split
    · simp [errorOf]
    · intro _
      simp [isStablished, errorOf]

theorem connect_close_established_witness :
    (errorOf (connect (exampleLib .CONNECTION_OK [] 90603) withHostName world0).result = none ∧
      isStablished (connect (exampleLib .CONNECTION_OK [] 90603) withHostName world0).self
        = true) ∧
    (errorOf (close (exampleLib .CONNECTION_OK [] 90603) connectedExample world0).result
        = none ∧
      isStablished (close (exampleLib .CONNECTION_OK [] 90603) connectedExample world0).self
        = false) :=
  ⟨⟨by decide,
      (connect_close_established (exampleLib .CONNECTION_OK [] 90603) withHostName world0).1
        (by decide)⟩,
    ⟨by decide,
      ((connect_close_established (exampleLib .CONNECTION_OK [] 90603) connectedExample
        world0).2 (by decide)).1⟩⟩

/-- C7: assigning `conn` to `this`, connected or not, raises nothing; afterwards
`this` has the parameter map and the connection string of `conn` and is not
established, `conn` is as it was, and the only library call made is the
`PQfinish` of the session `this` had, when it had one. -/
theorem assign_copies_configuration {σ : Type} (L : LibPQ σ) (this conn : Connection)
    (w : World σ) :
    errorOf (assign L this conn w).result = none ∧
      valueOf (getConnectionParams (assign L this conn w).self).result =
        valueOf (getConnectionParams conn).result ∧
      valueOf (getConnectionString (assign L this conn w).self).result =
        valueOf (getConnectionString conn).result ∧
      isStablished (assign L this conn w).self = false ∧
      (assign L this conn w).conn = conn ∧
      (assign L this conn w).world.calls = w.calls ++
        (match this.connection with
          | some session => [LibCall.PQfinish session]
          | none => []) := by
  obtain ⟨session, params, str⟩ := this
  cases session with
  | none => simp [assign, isStablished, errorOf, valueOf, getConnectionParams,
      getConnectionString]
  | some session => simp [assign, isStablished, close, errorOf, valueOf, getConnectionParams,
      getConnectionString, World.called]

/-- C9: on a reachable object `connect` fails with ERR_CONNECTION_NOT_CONFIGURED
exactly when no entry of the parameter map has a value that is not empty, which
is exactly when the connection string is empty; it then makes no library call
and leaves the object as it was; a default-constructed object is such a case. -/
theorem connect_not_configured {σ : Type} (L : LibPQ σ) (c : Connection) (w : World σ)
    (h : Reachable L c) :
    (errorOf (connect L c w).result = some .ERR_CONNECTION_NOT_CONFIGURED ↔
        ∀ e ∈ c.connection_params, e.2 = []) ∧
      ((∀ e ∈ c.connection_params, e.2 = []) ↔ c.connection_str = []) ∧
      (errorOf (connect L c w).result = some .ERR_CONNECTION_NOT_CONFIGURED →
        (connect L c w).self = c ∧ (connect L c w).world = w) ∧
      errorOf (connect L newConnection w).result = some .ERR_CONNECTION_NOT_CONFIGURED := by
  have hinv := invariant_of_reachable L c h
  have hstr : (∀ e ∈ c.connection_params, e.2 = []) ↔ c.connection_str = [] := by
    rw [hinv.2, expectedString_eq_nil]
  have hfail : errorOf (connect L c w).result = some .ERR_CONNECTION_NOT_CONFIGURED ↔
      c.connection_str = [] := by
    unfold connect
    split_ifs with h1
    · simp [errorOf, h1]
    · dsimp only
      split
      · simp [errorOf, h1]
      · split_ifs <;> simp [errorOf, h1]
  refine ⟨hfail.trans hstr.symm, hstr, ?_, by simp [connect, newConnection, errorOf]⟩
  intro hf
  have h1 := hfail.mp hf
  simp [connect, h1]

theorem connect_not_configured_witness :
    Reachable (exampleLib .CONNECTION_OK [] 90603) withEmptyPort ∧
      withEmptyPort.connection_params = [(qs "port", [])] ∧
      errorOf (connect (exampleLib .CONNECTION_OK [] 90603) withEmptyPort world0).result =
        some .ERR_CONNECTION_NOT_CONFIGURED :=
  ⟨Reachable.setConnectionParam _ _ Reachable.ctor, by decide,
    (connect_not_configured (exampleLib .CONNECTION_OK [] 90603) withEmptyPort world0
      (Reachable.setConnectionParam _ _ Reachable.ctor)).1.mpr (by decide)⟩

/-- C2, as the code has it: `setConnectionParam("host", v)` raises nothing;
when `v` is four non-empty runs of decimal digits separated by single dots, the
parameter map then has `v` for `hostaddr` and, for `host`, what it had before
the call (no entry when it had none); otherwise it has `v` for `host`. -/
theorem setConnectionParam_host (c : Connection) (v : QString) :
    errorOf (setConnectionParam c PARAM_SERVER_FQDN v).result = none ∧
      (DottedDecimal v →
        find PARAM_SERVER_IP (setConnectionParam c PARAM_SERVER_FQDN v).self.connection_params
            = some v ∧
          find PARAM_SERVER_FQDN (setConnectionParam c PARAM_SERVER_FQDN v).self.connection_params
            = find PARAM_SERVER_FQDN c.connection_params) ∧
      (¬ DottedDecimal v →
        find PARAM_SERVER_FQDN (setConnectionParam c PARAM_SERVER_FQDN v).self.connection_params
          = some v) := by
  have hne : PARAM_SERVER_FQDN ≠ [] := by decide
  have hne2 : PARAM_SERVER_FQDN ≠ PARAM_SERVER_IP := by decide
  refine ⟨?_, ?_, ?_⟩
  · unfold setConnectionParam
    rw [if_neg hne]
    split_ifs <;> rfl
  · intro hv
    have hm := (exactMatch_ip_regexp v).mpr hv
    simp only [setConnectionParam, if_neg hne, hm, and_self, if_true,
      generateConnectionString]
    exact ⟨find_subscriptAssign_self _ _ _, find_subscriptAssign_other _ _ _ _ hne2⟩
  · intro hv
    have hm : ¬ exactMatch ip_regexp v = true := fun h => hv ((exactMatch_ip_regexp v).mp h)
    simp only [setConnectionParam, if_neg hne, hm, and_false, if_false,
      generateConnectionString]
    exact find_subscriptAssign_self _ _ _

theorem setConnectionParam_host_witness :
    (DottedDecimal (qs "192.168.1.5") ∧
      find PARAM_SERVER_IP
        (setConnectionParam newConnection PARAM_SERVER_FQDN (qs "192.168.1.5")).self.connection_params
          = some (qs "192.168.1.5") ∧
      find PARAM_SERVER_FQDN
        (setConnectionParam newConnection PARAM_SERVER_FQDN (qs "192.168.1.5")).self.connection_params
          = none) ∧
    (¬ DottedDecimal (qs "db.example.com") ∧
      find PARAM_SERVER_FQDN
        (setConnectionParam newConnection PARAM_SERVER_FQDN (qs "db.example.com")).self.connection_params
          = some (qs "db.example.com")) :=
  have h1 : DottedDecimal (qs "192.168.1.5") := (exactMatch_ip_regexp _).mp (by decide)
  have h2 : ¬ DottedDecimal (qs "db.example.com") :=
    fun h => absurd ((exactMatch_ip_regexp _).mpr h) (by decide)
  ⟨⟨h1, ((setConnectionParam_host newConnection _).2.1 h1).1,
      ((setConnectionParam_host newConnection _).2.1 h1).2⟩,
    ⟨h2, (setConnectionParam_host newConnection _).2.2 h2⟩⟩

/-- C2 as stated fails: on an object whose map already has a `host` entry,
`setConnectionParam("host", "192.168.1.5")` stores the dotted-decimal value
under `hostaddr` and the `host` entry stays in the map. -/
theorem setConnectionParam_host_keeps_entry :
    DottedDecimal (qs "192.168.1.5") ∧
      errorOf (setConnectionParam withHostName PARAM_SERVER_FQDN (qs "192.168.1.5")).result
        = none ∧
      (setConnectionParam withHostName PARAM_SERVER_FQDN (qs "192.168.1.5")).self.connection_params
        = [(qs "host", qs "db.example.com"), (qs "hostaddr", qs "192.168.1.5")] ∧
      find PARAM_SERVER_FQDN
        (setConnectionParam withHostName PARAM_SERVER_FQDN (qs "192.168.1.5")).self.connection_params
          ≠ none :=
  ⟨(exactMatch_ip_regexp _).mp (by decide), by decide, by decide, by decide⟩

/-- C6 fails on the code: on a connected object, `getPgSQLVersion` makes `9.0.3`
of the version code 90013, which is 9*10000 + 0*100 + 13 and stands for 9.0.13,
`9.6.0` of 90610, `8.4.2` of 80422, and `1.0.0` of 120004, which the claim
decodes to `12.0.4`; of 90603 it makes `9.6.3`, as the claim says. -/
theorem getPgSQLVersion_misdecodes :
    isStablished connectedExample = true ∧
      ((90013 : Int) = 9 * 10000 + 0 * 100 + 13 ∧
        valueOf (getPgSQLVersion (exampleLib .CONNECTION_OK [] 90013) connectedExample
          world0).result = some (qs "9.0.3") ∧
        qs "9.0.3" ≠ qs "9.0.13") ∧
      ((90610 : Int) = 9 * 10000 + 6 * 100 + 10 ∧
        valueOf (getPgSQLVersion (exampleLib .CONNECTION_OK [] 90610) connectedExample
          world0).result = some (qs "9.6.0") ∧
        qs "9.6.0" ≠ qs "9.6.10") ∧
      ((80422 : Int) = 8 * 10000 + 4 * 100 + 22 ∧
        valueOf (getPgSQLVersion (exampleLib .CONNECTION_OK [] 80422) connectedExample
          world0).result = some (qs "8.4.2") ∧
        qs "8.4.2" ≠ qs "8.4.22") ∧
      ((120004 : Int) = 12 * 10000 + 0 * 100 + 4 ∧
        valueOf (getPgSQLVersion (exampleLib .CONNECTION_OK [] 120004) connectedExample
          world0).result = some (qs "1.0.0") ∧
        qs "1.0.0" ≠ qs "12.0.4") ∧
      valueOf (getPgSQLVersion (exampleLib .CONNECTION_OK [] 90603) connectedExample
        world0).result = some (qs "9.6.3") :=
  ⟨by decide, ⟨by decide, by decide, by decide⟩, ⟨by decide, by decide, by decide⟩,
    ⟨by decide, by decide, by decide⟩, ⟨by decide, by decide, by decide⟩, by decide⟩

/-- C8: `executeDMLCommand` and `executeDDLCommand` fail in the same cases with
the same error code: with ERR_OPR_NOT_ALOC_CONN exactly when no session is
open, no library call being made then; with ERR_CMD_SQL_NOT_EXECUTED exactly
when a session is open and the library's error text for it is not empty
after `PQexec`; in no other way.  Failing or not, both leave the object as it
was. -/
theorem execute_commands_failures {σ : Type} (L : LibPQ σ) (c : Connection)
    (sql : QString) (w : World σ) :
    errorOf (executeDMLCommand L c sql w).result =
        errorOf (executeDDLCommand L c sql w).result ∧
      (errorOf (executeDMLCommand L c sql w).result = some .ERR_OPR_NOT_ALOC_CONN ↔
        isStablished c = false) ∧
      (isStablished c = false →
        (executeDMLCommand L c sql w).world = w ∧ (executeDDLCommand L c sql w).world = w) ∧
      (errorOf (executeDMLCommand L c sql w).result = some .ERR_CMD_SQL_NOT_EXECUTED ↔
        ∃ conn, c.connection = some conn ∧
          L.PQerrorMessage (L.PQexec w.lib conn sql).2 (some conn) ≠ []) ∧
      (errorOf (executeDMLCommand L c sql w).result = none ∨
        errorOf (executeDMLCommand L c sql w).result = some .ERR_OPR_NOT_ALOC_CONN ∨
        errorOf (executeDMLCommand L c sql w).result = some .ERR_CMD_SQL_NOT_EXECUTED) ∧
      (executeDMLCommand L c sql w).self = c ∧
      (executeDDLCommand L c sql w).self = c := by
  obtain ⟨session, params, str⟩ := c
  cases session with
  | none => simp [executeDMLCommand, executeDDLCommand, errorOf, isStablished]
  | some conn =>
    by_cases herr : L.PQerrorMessage (L.PQexec w.lib conn sql).2 (some conn) = []
    · simp [executeDMLCommand, executeDDLCommand, errorOf, isStablished, World.called, herr]
    · have hlen : 0 < (L.PQerrorMessage (L.PQexec w.lib conn sql).2 (some conn)).length :=
        List.length_pos.mpr herr
      simp [executeDMLCommand, executeDDLCommand, errorOf, isStablished, World.called, herr,
        hlen]

theorem execute_commands_failures_witness :
    (errorOf (executeDMLCommand (exampleLib .CONNECTION_OK [] 90603) withHostName
        (qs "select 1") world0).result = some .ERR_OPR_NOT_ALOC_CONN ∧
      errorOf (executeDDLCommand (exampleLib .CONNECTION_OK [] 90603) withHostName
        (qs "select 1") world0).result = some .ERR_OPR_NOT_ALOC_CONN) ∧
    (errorOf (executeDMLCommand (exampleLib .CONNECTION_OK (qs "syntax error") 90603)
        connectedExample (qs "selec 1") world0).result = some .ERR_CMD_SQL_NOT_EXECUTED ∧
      errorOf (executeDDLCommand (exampleLib .CONNECTION_OK (qs "syntax error") 90603)
        connectedExample (qs "selec 1") world0).result = some .ERR_CMD_SQL_NOT_EXECUTED) ∧
    (errorOf (executeDMLCommand (exampleLib .CONNECTION_OK [] 90603) connectedExample
        (qs "select 1") world0).result = none ∧
      errorOf (executeDDLCommand (exampleLib .CONNECTION_OK [] 90603) connectedExample
        (qs "select 1") world0).result = none) :=
  have h1 := (execute_commands_failures (exampleLib .CONNECTION_OK [] 90603) withHostName
    (qs "select 1") world0).1
  have h2 := (execute_commands_failures (exampleLib .CONNECTION_OK (qs "syntax error") 90603)
    connectedExample (qs "selec 1") world0).1
  have h3 := (execute_commands_failures (exampleLib .CONNECTION_OK [] 90603) connectedExample
    (qs "select 1") world0).1
  ⟨⟨by decide, h1 ▸ (by decide)⟩, ⟨by decide, h2 ▸ (by decide)⟩, ⟨by decide, h3 ▸ (by decide)⟩⟩

/-- C5 fails on the code: `withHostName` is not established and its connection
string is not empty; when the library yields a handle of bad status, `connect`
fails with ERR_CONNECTION_NOT_STABLISHED and leaves that handle in the object,
which then is established: it is not as it was before the call. -/
theorem connect_bad_status_keeps_handle :
    isStablished withHostName = false ∧
      withHostName.connection_str = qs "host=db.example.com " ∧
      errorOf (connect refusingLib withHostName world0).result =
        some .ERR_CONNECTION_NOT_STABLISHED ∧
      (connect refusingLib withHostName world0).self.connection = some 1 ∧
      isStablished (connect refusingLib withHostName world0).self = true ∧
      (connect refusingLib withHostName world0).self ≠ withHostName :=
  ⟨by decide, by decide, by decide, by decide, by decide, by decide⟩

/-- C10 fails on the code: on a default-constructed object, whose map is empty,
`getConnectionParam("port")` raises nothing and returns the empty string, and
leaves an entry for `port` in the map; `getConnectionParam("")` likewise leaves
an entry whose name is empty, which `setConnectionParam` refuses to make. -/
theorem getConnectionParam_inserts_entry :
    newConnection.connection_params = [] ∧
      errorOf (getConnectionParam newConnection PARAM_PORT).result = none ∧
      valueOf (getConnectionParam newConnection PARAM_PORT).result = some [] ∧
      (getConnectionParam newConnection PARAM_PORT).self.connection_params
        = [(qs "port", [])] ∧
      keys (getConnectionParam newConnection PARAM_PORT).self.connection_params
        ≠ keys newConnection.connection_params ∧
      (getConnectionParam newConnection []).self.connection_params = [([], [])] ∧
      errorOf (setConnectionParam newConnection [] []).result
        = some .ERR_ASG_INV_CONN_PARAM :=
  ⟨by decide, by decide, by decide, by decide, by decide, by decide, by decide⟩

end PgConnector
